import Mathlib

/-!
# Verification of the lollipop state-machine engine

Shallow embedding of the Go package statemachine (src/state_machine.go).

Modelling choices:
* The Go type State is an opaque comparable value; we are generic over a
  type sigma with decidable equality.
* A Go Guard is a side-effect-free predicate evaluated at call time; since
  guards are assumed deterministic, a stored guard is modelled by the Bool
  it evaluates to, and a nil guard by Option.none.
* A Go Action is a caller-supplied callback returning an error or nil; it
  is modelled by the Bool telling whether it succeeds (true = nil error).
  A nil action (absent map entry) is modelled by absence from the
  association list. The engine records every action invocation, and the
  state mutation, in an event trace so that "invoked exactly once, in this
  order" becomes a statement about the trace.
* Go maps are modelled as association lists with first-key lookup; the Go
  code never iterates over a map, so iteration order does not matter.
* The three Go error sentinels ErrInvalidTransition, ErrExitActionFailed
  and ErrEntryActionFailed become the three constructors of SMError; the
  invalidTransition constructor carries the from and to values that the Go
  code formats into the error message.
-/


/-- A transition entry as in the Go struct Transition: a target state and an
optional guard. The deterministic evaluation of a stored guard is the Bool
value; a nil guard is none. -/
structure Transition (σ : Type) where
  To : σ
  Guard : Option Bool
deriving Repr, DecidableEq

/-- The error values the Go package can return from Transition, mirroring the
sentinels ErrInvalidTransition, ErrExitActionFailed, ErrEntryActionFailed.
The Go code wraps ErrInvalidTransition with the current state and requested
destination, which the first constructor carries. -/
inductive SMError (σ : Type) where
  | invalidTransition (fromState toS : σ)
  | exitActionFailed
  | entryActionFailed
deriving Repr, DecidableEq

/-- Observable events of a Transition call: invocation of the exit action
registered for a state, the mutation of the current-state field, and
invocation of the entry action registered for a state. -/
inductive Ev (σ : Type) where
  | exit (s : σ)
  | setState (s : σ)
  | entry (s : σ)
deriving Repr, DecidableEq

/-- Lookup in an association list, modelling a Go map read (value plus the
exists flag folded into Option). -/
def mapGet {σ : Type} {α : Type} [DecidableEq σ] :
    List (σ × α) → σ → Option α
  | [], _ => none
  | (k, v) :: rest, s => if k = s then some v else mapGet rest s

/-- Insert-or-replace in an association list, modelling a Go map write. -/
def mapSet {σ : Type} {α : Type} [DecidableEq σ] :
    List (σ × α) → σ → α → List (σ × α)
  | [], k, v => [(k, v)]
  | (k0, v0) :: rest, k, v =>
      if k0 = k then (k, v) :: rest else (k0, v0) :: mapSet rest k v

/-- The Go struct StateMachine: current state, transition table, the initial
state recorded for Reset, and the entry/exit action maps. -/
structure StateMachine (σ : Type) where
  State : σ
  Transitions : List (σ × List (Transition σ))
  InitialState : σ
  entryActions : List (σ × Bool)
  exitActions : List (σ × Bool)
deriving Repr, DecidableEq

namespace StateMachine

variable {σ : Type} [DecidableEq σ]

/-- Go NewStateMachine: current state and initial state both the given
value, empty table and action maps. -/
def NewStateMachine (initialState : σ) : StateMachine σ :=
  { State := initialState
    Transitions := []
    InitialState := initialState
    entryActions := []
    exitActions := [] }

/-- Go AddTransition: append a Transition entry to the list keyed by the
from state, creating the list if absent. -/
def AddTransition (sm : StateMachine σ) (fromState toS : σ)
    (guard : Option Bool) : StateMachine σ :=
  let cur := (mapGet sm.Transitions fromState).getD []
  { sm with
    Transitions :=
      mapSet sm.Transitions fromState (cur ++ [⟨toS, guard⟩]) }

/-- Go AddSimpleTransition: AddTransition with a nil guard. -/
def AddSimpleTransition (sm : StateMachine σ) (fromState toS : σ) :
    StateMachine σ :=
  sm.AddTransition fromState toS none

/-- Go SetEntryAction: set or replace the entry action for a state. -/
def SetEntryAction (sm : StateMachine σ) (state : σ) (action : Bool) :
    StateMachine σ :=
  { sm with entryActions := mapSet sm.entryActions state action }

/-- Go SetExitAction: set or replace the exit action for a state. -/
def SetExitAction (sm : StateMachine σ) (state : σ) (action : Bool) :
    StateMachine σ :=
  { sm with exitActions := mapSet sm.exitActions state action }

/-- Go Reset: unconditionally set the current state back to the recorded
initial state. No action is consulted or invoked. -/
def Reset (sm : StateMachine σ) : StateMachine σ :=
  { sm with State := sm.InitialState }

/-- The loop body of Go CanTransition: scan the transition list in
registration order for the first entry whose To equals the requested
destination. -/
def findMatch : List (Transition σ) → σ → Option (Transition σ)
  | [], _ => none
  | t :: ts, toS => if t.To = toS then some t else findMatch ts toS

/-- Go CanTransition: look up the list for the current state (absent key
means false), scan for the first match, and return its guard value (true
when the guard is nil); no match means false. The Go function invokes no
exit, entry or other action, which the pure Bool return type reflects. -/
def CanTransition (sm : StateMachine σ) (toS : σ) : Bool :=
  match mapGet sm.Transitions sm.State with
  | none => false
  | some transitions =>
      match findMatch transitions toS with
      | none => false
      | some t =>
          match t.Guard with
          | some g => g
          | none => true

/-- Result of a Go Transition call: the returned error (Except), the state
machine afterwards, and the trace of action invocations and state
mutations. -/
structure TransOut (σ : Type) where
  res : Except (SMError σ) Unit
  sm : StateMachine σ
  events : List (Ev σ)
deriving Repr

/-- Go Transition: gate on CanTransition (returning the wrapped
ErrInvalidTransition), run the exit action for the current state if
registered (aborting with ErrExitActionFailed before any state change),
mutate the state, then run the entry action for the destination if
registered, rolling the state back to its prior value on failure. -/
def Transition (sm : StateMachine σ) (toS : σ) : TransOut σ :=
  if sm.CanTransition toS = false then
    ⟨.error (.invalidTransition sm.State toS), sm, []⟩
  else
    let exitStep : Bool × List (Ev σ) :=
      match mapGet sm.exitActions sm.State with
      | some ok => (ok, [Ev.exit sm.State])
      | none => (true, [])
    if exitStep.1 = false then
      ⟨.error .exitActionFailed, sm, exitStep.2⟩
    else
      let oldState := sm.State
      let sm1 : StateMachine σ := { sm with State := toS }
      let evs1 := exitStep.2 ++ [Ev.setState toS]
      match mapGet sm.entryActions toS with
      | some ok =>
          if ok then ⟨.ok (), sm1, evs1 ++ [Ev.entry toS]⟩
          else
            ⟨.error .entryActionFailed, { sm1 with State := oldState },
              evs1 ++ [Ev.entry toS]⟩
      | none => ⟨.ok (), sm1, evs1⟩

end StateMachine

namespace StateMachine

variable {σ : Type} [DecidableEq σ]

/-- Does a Transition result carry the wrapped ErrInvalidTransition? -/
def isInvalid : Except (SMError σ) Unit → Bool
  | .error (.invalidTransition _ _) => true
  | _ => false

lemma transition_can_false (sm : StateMachine σ) (toS : σ)
    (h : sm.CanTransition toS = false) :
    sm.Transition toS =
      ⟨.error (.invalidTransition sm.State toS), sm, []⟩ := by
  simp [Transition, h]

lemma transition_err_state (sm : StateMachine σ) (toS : σ) (e : SMError σ)
    (h : (sm.Transition toS).res = .error e) :
    (sm.Transition toS).sm.State = sm.State := by
  revert h
  rcases hc : sm.CanTransition toS with _ | _ <;>
    rcases hx : mapGet sm.exitActions sm.State with _ | ok <;>
      (try cases ok) <;>
    rcases he : mapGet sm.entryActions toS with _ | ok2 <;>
      (try cases ok2) <;>
    simp [Transition, hc, hx, he]

lemma transition_err_no_mutation (sm : StateMachine σ) (toS : σ)
    (e : SMError σ) (h : (sm.Transition toS).res = .error e)
    (hne : e ≠ .entryActionFailed) :
    ∀ s, Ev.setState s ∉ (sm.Transition toS).events := by
  revert h
  rcases hc : sm.CanTransition toS with _ | _ <;>
    rcases hx : mapGet sm.exitActions sm.State with _ | ok <;>
      (try cases ok) <;>
    rcases he : mapGet sm.entryActions toS with _ | ok2 <;>
      (try cases ok2) <;>
    simp [Transition, hc, hx, he] <;>
    intro h <;> simp [h] at hne

lemma transition_ok_state (sm : StateMachine σ) (toS : σ)
    (h : (sm.Transition toS).res = .ok ()) :
    (sm.Transition toS).sm.State = toS := by
  revert h
  rcases hc : sm.CanTransition toS with _ | _ <;>
    rcases hx : mapGet sm.exitActions sm.State with _ | ok <;>
      (try cases ok) <;>
    rcases he : mapGet sm.entryActions toS with _ | ok2 <;>
      (try cases ok2) <;>
    simp [Transition, hc, hx, he]

lemma transition_ok_events (sm : StateMachine σ) (toS : σ)
    (h : (sm.Transition toS).res = .ok ()) :
    (sm.Transition toS).events =
      (if (mapGet sm.exitActions sm.State).isSome
        then [Ev.exit sm.State] else [])
      ++ [Ev.setState toS]
      ++ (if (mapGet sm.entryActions toS).isSome
        then [Ev.entry toS] else []) := by
  revert h
  rcases hc : sm.CanTransition toS with _ | _ <;>
    rcases hx : mapGet sm.exitActions sm.State with _ | ok <;>
      (try cases ok) <;>
    rcases he : mapGet sm.entryActions toS with _ | ok2 <;>
      (try cases ok2) <;>
    simp [Transition, hc, hx, he]

lemma transition_frame (sm : StateMachine σ) (toS : σ) :
    (sm.Transition toS).sm.Transitions = sm.Transitions ∧
    (sm.Transition toS).sm.InitialState = sm.InitialState ∧
    (sm.Transition toS).sm.entryActions = sm.entryActions ∧
    (sm.Transition toS).sm.exitActions = sm.exitActions := by
  rcases hc : sm.CanTransition toS with _ | _ <;>
    rcases hx : mapGet sm.exitActions sm.State with _ | ok <;>
      (try cases ok) <;>
    rcases he : mapGet sm.entryActions toS with _ | ok2 <;>
      (try cases ok2) <;>
    simp [Transition, hc, hx, he]

lemma isInvalid_transition (sm : StateMachine σ) (toS : σ) :
    isInvalid (sm.Transition toS).res = !(sm.CanTransition toS) := by
  rcases hc : sm.CanTransition toS with _ | _ <;>
    rcases hx : mapGet sm.exitActions sm.State with _ | ok <;>
      (try cases ok) <;>
    rcases he : mapGet sm.entryActions toS with _ | ok2 <;>
      (try cases ok2) <;>
    simp [Transition, hc, hx, he, isInvalid]

end StateMachine

section FirstMatch

variable {σ : Type} [DecidableEq σ]

open StateMachine in
lemma findMatch_none (toS : σ) :
    ∀ ts : List (Transition σ), (∀ t ∈ ts, t.To ≠ toS) →
      findMatch ts toS = none := by
  intro ts
  induction ts with
  | nil => intro; rfl
  | cons t ts ih =>
      intro h
      simp only [findMatch, if_neg (h t (by simp))]
      exact ih fun u hu => h u (by simp [hu])

open StateMachine in
lemma findMatch_first (toS : σ) (t : Transition σ) (ht : t.To = toS) :
    ∀ l₁ l₂ : List (Transition σ), (∀ u ∈ l₁, u.To ≠ toS) →
      findMatch (l₁ ++ t :: l₂) toS = some t := by
  intro l₁
  induction l₁ with
  | nil => intro l₂ _; simp [findMatch, ht]
  | cons u l₁ ih =>
      intro l₂ h
      simp only [List.cons_append, findMatch, if_neg (h u (by simp))]
      exact ih l₂ fun v hv => h v (by simp [hv])

lemma canTransition_no_edges (sm : StateMachine σ) (toS : σ)
    (h : mapGet sm.Transitions sm.State = none) :
    sm.CanTransition toS = false := by
  simp [StateMachine.CanTransition, h]

lemma canTransition_no_match (sm : StateMachine σ) (toS : σ)
    (ts : List (Transition σ))
    (hts : mapGet sm.Transitions sm.State = some ts)
    (h : ∀ t ∈ ts, t.To ≠ toS) :
    sm.CanTransition toS = false := by
  simp [StateMachine.CanTransition, hts, findMatch_none toS ts h]

lemma canTransition_first_match (sm : StateMachine σ) (toS : σ)
    (t : Transition σ) (l₁ l₂ : List (Transition σ))
    (hts : mapGet sm.Transitions sm.State = some (l₁ ++ t :: l₂))
    (ht : t.To = toS) (hfst : ∀ u ∈ l₁, u.To ≠ toS) :
    sm.CanTransition toS = t.Guard.getD true := by
  simp only [StateMachine.CanTransition, hts,
    findMatch_first toS t ht l₁ l₂ hfst]
  cases t.Guard <;> rfl

end FirstMatch

/-- One call of the public API of the engine, for reasoning about arbitrary
later sequences of engine operations. The transition constructor records the
requested destination; the log of runOpsLog records the destinations of the
transitions that returned success. -/
inductive Op (σ : Type) where
  | addTransition (fromState toS : σ) (guard : Option Bool)
  | addSimpleTransition (fromState toS : σ)
  | setEntryAction (s : σ) (a : Bool)
  | setExitAction (s : σ) (a : Bool)
  | canTransition (toS : σ)
  | transition (toS : σ)
  | reset
deriving Repr

/-- Apply one API call to the engine; the second component logs the
destination when the call was a transition that returned success.
CanTransition reads but never writes the engine, so its op leaves the
machine unchanged. -/
def applyOpLog {σ : Type} [DecidableEq σ] (sm : StateMachine σ) :
    Op σ → StateMachine σ × List σ
  | .addTransition f t g => (sm.AddTransition f t g, [])
  | .addSimpleTransition f t => (sm.AddSimpleTransition f t, [])
  | .setEntryAction s a => (sm.SetEntryAction s a, [])
  | .setExitAction s a => (sm.SetExitAction s a, [])
  | .canTransition _ => (sm, [])
  | .transition toS =>
      ((sm.Transition toS).sm,
        match (sm.Transition toS).res with
        | .ok _ => [toS]
        | .error _ => [])
  | .reset => (sm.Reset, [])

/-- Run a sequence of API calls, accumulating the log of successfully
performed transition destinations. -/
def runOpsLog {σ : Type} [DecidableEq σ] (sm : StateMachine σ) :
    List (Op σ) → StateMachine σ × List σ
  | [] => (sm, [])
  | op :: ops =>
      ((runOpsLog (applyOpLog sm op).1 ops).1,
        (applyOpLog sm op).2 ++ (runOpsLog (applyOpLog sm op).1 ops).2)

section OpsLemmas

variable {σ : Type} [DecidableEq σ]

lemma applyOpLog_initial (sm : StateMachine σ) (op : Op σ) :
    (applyOpLog sm op).1.InitialState = sm.InitialState := by
  cases op with
  | transition toS => exact (StateMachine.transition_frame sm toS).2.1
  | _ => rfl

lemma runOpsLog_initial (ops : List (Op σ)) : ∀ sm : StateMachine σ,
    (runOpsLog sm ops).1.InitialState = sm.InitialState := by
  induction ops with
  | nil => intro sm; rfl
  | cons op ops ih =>
      intro sm
      calc (runOpsLog sm (op :: ops)).1.InitialState
          = (runOpsLog (applyOpLog sm op).1 ops).1.InitialState := rfl
        _ = (applyOpLog sm op).1.InitialState := ih _
        _ = sm.InitialState := applyOpLog_initial sm op

lemma applyOpLog_state (sm : StateMachine σ) (op : Op σ) :
    (applyOpLog sm op).1.State = sm.State ∨
    (applyOpLog sm op).1.State = sm.InitialState ∨
    (applyOpLog sm op).1.State ∈ (applyOpLog sm op).2 := by
  cases op with
  | transition toS =>
      rcases h : (sm.Transition toS).res with e | u
      · exact Or.inl (StateMachine.transition_err_state sm toS e h)
      · right; right
        simp only [applyOpLog, h]
        cases u
        simp [StateMachine.transition_ok_state sm toS h]
  | reset => exact Or.inr (Or.inl rfl)
  | _ => exact Or.inl rfl

lemma runOpsLog_state (ops : List (Op σ)) : ∀ sm : StateMachine σ,
    (runOpsLog sm ops).1.State = sm.State ∨
    (runOpsLog sm ops).1.State = sm.InitialState ∨
    (runOpsLog sm ops).1.State ∈ (runOpsLog sm ops).2 := by
  induction ops with
  | nil => intro sm; exact Or.inl rfl
  | cons op ops ih =>
      intro sm
      have hrun1 : (runOpsLog sm (op :: ops)).1
          = (runOpsLog (applyOpLog sm op).1 ops).1 := rfl
      have hrun2 : (runOpsLog sm (op :: ops)).2
          = (applyOpLog sm op).2 ++ (runOpsLog (applyOpLog sm op).1 ops).2 :=
        rfl
      rw [hrun1, hrun2]
      rcases ih (applyOpLog sm op).1 with h | h | h
      · rw [h]
        rcases applyOpLog_state sm op with h2 | h2 | h2
        · exact Or.inl h2
        · exact Or.inr (Or.inl h2)
        · exact Or.inr (Or.inr (List.mem_append_left _ h2))
      · rw [h, applyOpLog_initial sm op]
        exact Or.inr (Or.inl rfl)
      · exact Or.inr (Or.inr (List.mem_append_right _ h))

end OpsLemmas

/-! ## Concrete engines used as witnesses -/

/-- An engine at state 0 with the single edge 0 to 1 and no guard. -/
def exNoMatch : StateMachine Nat :=
  (StateMachine.NewStateMachine 0).AddSimpleTransition 0 1

/-- An engine at state 0 with edge 0 to 1, a succeeding exit action on 0 and
a succeeding entry action on 1. -/
def exFull : StateMachine Nat :=
  (((StateMachine.NewStateMachine 0).AddSimpleTransition 0 1).SetEntryAction
    1 true).SetExitAction 0 true

/-- An engine at state 0 with edge 0 to 1 and a failing entry action on 1. -/
def exEntryFail : StateMachine Nat :=
  ((StateMachine.NewStateMachine 0).AddSimpleTransition 0 1).SetEntryAction
    1 false

/-- An engine at state 0 whose only edge 0 to 1 carries a guard evaluating
false. -/
def exGuardFalse : StateMachine Nat :=
  (StateMachine.NewStateMachine 0).AddTransition 0 1 (some false)

/-- An engine at state 0 with two edges 0 to 1: the first guarded by false,
the second unguarded (the duplicate-edge scenario of the spec). -/
def exDup : StateMachine Nat :=
  ((StateMachine.NewStateMachine 0).AddTransition 0 1
    (some false)).AddTransition 0 1 none

/-! ## Claims -/

/-- Claim C1: when the current state has at least one registered outgoing
transition but none whose destination equals the requested one, Transition
fails with the InvalidTransition error kind (wrapping the current state and
requested destination, as the Go code formats them). -/
theorem C1_no_match_invalid_transition (sm : StateMachine Nat) (toS : Nat)
    (ts : List (Transition Nat))
    (hts : mapGet sm.Transitions sm.State = some ts)
    (hne : ts ≠ [])
    (hnm : ∀ t ∈ ts, t.To ≠ toS) :
    (sm.Transition toS).res = .error (.invalidTransition sm.State toS) := by
  rw [StateMachine.transition_can_false sm toS
    (canTransition_no_match sm toS ts hts hnm)]

/-- Witness for C1: an engine at 0 with only the edge 0 to 1, asked to
transition to 2, fails with InvalidTransition. -/
theorem C1_witness :
    (exNoMatch.Transition 2).res = .error (.invalidTransition 0 2) :=
  C1_no_match_invalid_transition exNoMatch 2 [⟨1, none⟩] rfl
    (by decide) (by decide)

/-- Claim C2: every erroring Transition call leaves the current state equal
to its pre-call value; for every error kind other than EntryActionFailed no
state mutation happened at all (no setState event in the trace), while for
EntryActionFailed the transient mutation has been rolled back. -/
theorem C2_error_state_unchanged (sm : StateMachine Nat) (toS : Nat)
    (e : SMError Nat) (h : (sm.Transition toS).res = .error e) :
    (sm.Transition toS).sm.State = sm.State ∧
      (e ≠ .entryActionFailed →
        ∀ s, Ev.setState s ∉ (sm.Transition toS).events) :=
  ⟨StateMachine.transition_err_state sm toS e h,
    fun hne => StateMachine.transition_err_no_mutation sm toS e h hne⟩

/-- Witness for C2: the entry action on 1 fails, the call errors with
EntryActionFailed, and the state has been rolled back to 0. -/
theorem C2_witness :
    (exEntryFail.Transition 1).res = .error .entryActionFailed ∧
      (exEntryFail.Transition 1).sm.State = 0 :=
  ⟨rfl, (C2_error_state_unchanged exEntryFail 1 .entryActionFailed rfl).1⟩

/-- Claim C3: a successful Transition call ends with the current state equal
to the destination, and its trace is exactly the exit action of the old
state (when registered), then the state mutation, then the entry action of
the destination (when registered), each therefore invoked exactly once and
in that order. The engine's transition entries carry no per-transition
action (the Go Transition struct has only To and Guard), so the claim's
transition-action clause holds vacuously: the trace contains nothing
between the exit action and the state mutation. -/
theorem C3_success_actions_in_order (sm : StateMachine Nat) (toS : Nat)
    (h : (sm.Transition toS).res = .ok ()) :
    (sm.Transition toS).sm.State = toS ∧
      (sm.Transition toS).events =
        (if (mapGet sm.exitActions sm.State).isSome
          then [Ev.exit sm.State] else [])
        ++ [Ev.setState toS]
        ++ (if (mapGet sm.entryActions toS).isSome
          then [Ev.entry toS] else []) :=
  ⟨StateMachine.transition_ok_state sm toS h,
    StateMachine.transition_ok_events sm toS h⟩

/-- Witness for C3: with exit action on 0 and entry action on 1 both
registered and succeeding, the transition from 0 to 1 succeeds; the state
ends at 1 and the trace is exit 0, then the mutation, then entry 1. -/
theorem C3_witness :
    (exFull.Transition 1).sm.State = 1 ∧
      (exFull.Transition 1).events =
        [Ev.exit 0, Ev.setState 1, Ev.entry 1] :=
  C3_success_actions_in_order exFull 1 rfl

/-- Counterexample for C4: the only edge 0 to 1 carries a guard evaluating
false, and the call fails with the InvalidTransition kind, not with a
GuardRejected kind; the Go code's error enumeration does not contain a
GuardRejected value at all, so the claim's error kind is wrong. -/
theorem C4_counterexample :
    (exGuardFalse.Transition 1).res = .error (.invalidTransition 0 1) ∧
      (exGuardFalse.Transition 1).sm.State = 0 :=
  ⟨rfl, rfl⟩

/-- Claim C4 as amended: when the first matching edge's guard evaluates
false, Transition fails with the InvalidTransition error kind (the Go code
folds guard rejection into ErrInvalidTransition) and the current state is
untouched. -/
theorem C4_guard_false_invalid_transition (sm : StateMachine Nat)
    (toS : Nat) (t : Transition Nat) (l₁ l₂ : List (Transition Nat))
    (hts : mapGet sm.Transitions sm.State = some (l₁ ++ t :: l₂))
    (ht : t.To = toS) (hfst : ∀ u ∈ l₁, u.To ≠ toS)
    (hg : t.Guard = some false) :
    (sm.Transition toS).res = .error (.invalidTransition sm.State toS) ∧
      (sm.Transition toS).sm.State = sm.State := by
  have hcan : sm.CanTransition toS = false := by
    rw [canTransition_first_match sm toS t l₁ l₂ hts ht hfst, hg]
    rfl
  rw [StateMachine.transition_can_false sm toS hcan]
  exact ⟨rfl, rfl⟩

/-- Witness for amended C4: the guarded-false edge 0 to 1 yields
InvalidTransition and the state stays 0. -/
theorem C4_witness :
    (exGuardFalse.Transition 1).res = .error (.invalidTransition 0 1) ∧
      (exGuardFalse.Transition 1).sm.State = 0 :=
  C4_guard_false_invalid_transition exGuardFalse 1 ⟨1, some false⟩ [] []
    rfl rfl (by decide) rfl

/-- Counterexample for C5: an engine whose current state has no entry in
the transition table fails with the InvalidTransition kind; the Go code has
no distinct NoTransitionsDefined error kind, so the claimed distinct kind
does not exist. -/
theorem C5_counterexample :
    ((StateMachine.NewStateMachine 0).Transition 1).res
      = .error (.invalidTransition 0 1) := rfl

/-- Claim C5 as amended: when the current state has no entry at all in the
transition table, Transition fails with the InvalidTransition error kind
(the same kind the no-matching-edge case produces; the Go code does not
distinguish the two) and the current state is untouched. -/
theorem C5_no_edges_invalid_transition (sm : StateMachine Nat) (toS : Nat)
    (h : mapGet sm.Transitions sm.State = none) :
    (sm.Transition toS).res = .error (.invalidTransition sm.State toS) ∧
      (sm.Transition toS).sm.State = sm.State := by
  rw [StateMachine.transition_can_false sm toS
    (canTransition_no_edges sm toS h)]
  exact ⟨rfl, rfl⟩

/-- Witness for amended C5: a fresh engine with an empty table fails with
InvalidTransition and keeps its state. -/
theorem C5_witness :
    ((StateMachine.NewStateMachine 0).Transition 1).res
        = .error (.invalidTransition 0 1) ∧
      ((StateMachine.NewStateMachine 0).Transition 1).sm.State = 0 :=
  C5_no_edges_invalid_transition (StateMachine.NewStateMachine 0) 1 rfl

/-- Claim C6: CanTransition is a pure read (its embedding consumes the
engine and returns only a Bool, reflecting that the Go function invokes no
exit, entry or other action and writes nothing), and it returns true
exactly when a Transition call under the same conditions passes the
lookup, match and guard checks, that is, does not fail with the
InvalidTransition kind into which the Go code folds all three checks. -/
theorem C6_canTransition_iff_checks_pass (sm : StateMachine Nat)
    (toS : Nat) :
    sm.CanTransition toS = true ↔
      StateMachine.isInvalid (sm.Transition toS).res = false := by
  rw [StateMachine.isInvalid_transition sm toS]
  cases sm.CanTransition toS <;> simp

/-- Claim C7: CanTransition consults only the first entry in registration
order whose destination matches, returning its guard value (true when the
guard is nil), regardless of any later matching entry. -/
theorem C7_first_match_governs (sm : StateMachine Nat) (toS : Nat)
    (t : Transition Nat) (l₁ l₂ : List (Transition Nat))
    (hts : mapGet sm.Transitions sm.State = some (l₁ ++ t :: l₂))
    (ht : t.To = toS) (hfst : ∀ u ∈ l₁, u.To ≠ toS) :
    sm.CanTransition toS = t.Guard.getD true :=
  canTransition_first_match sm toS t l₁ l₂ hts ht hfst

/-- Witness for C7, the spec's duplicate-edge scenario: two edges 0 to 1,
the first with a guard returning false and the second unguarded;
CanTransition 1 returns false because only the first match is consulted. -/
theorem C7_witness : exDup.CanTransition 1 = false :=
  C7_first_match_governs exDup 1 ⟨1, some false⟩ [] [⟨1, none⟩]
    rfl rfl (by decide)

/-- Claim C8: a fresh engine starts at the constructor's state, and after
any sequence of API calls a Reset restores exactly that state; Reset only
copies the recorded initial state into the current state and consults no
action (its embedding invokes nothing and produces no events). -/
theorem C8_new_and_reset (s : Nat) (ops : List (Op Nat)) :
    (StateMachine.NewStateMachine s).State = s ∧
      ((runOpsLog (StateMachine.NewStateMachine s) ops).1.Reset).State
        = s :=
  ⟨rfl, by
    show (runOpsLog (StateMachine.NewStateMachine s) ops).1.InitialState = s
    rw [runOpsLog_initial ops (StateMachine.NewStateMachine s)]
    rfl⟩

/-- Claim C9: in every engine reachable by API calls from a fresh engine,
the current state is either the constructor's value or the destination of
some transition the engine itself performed successfully (recorded in the
run's log); no operation sets it to any other value. -/
theorem C9_state_provenance (s : Nat) (ops : List (Op Nat)) :
    (runOpsLog (StateMachine.NewStateMachine s) ops).1.State = s ∨
      (runOpsLog (StateMachine.NewStateMachine s) ops).1.State
        ∈ (runOpsLog (StateMachine.NewStateMachine s) ops).2 := by
  rcases runOpsLog_state ops (StateMachine.NewStateMachine s) with
    h | h | h
  · exact Or.inl h
  · exact Or.inl h
  · exact Or.inr h

/-- Claim C10: a Transition call, succeeding or failing, never changes the
transition table, the recorded initial state, or the entry and exit action
maps; only the current-state field can differ afterwards. -/
theorem C10_transition_frame (sm : StateMachine Nat) (toS : Nat) :
    (sm.Transition toS).sm.Transitions = sm.Transitions ∧
    (sm.Transition toS).sm.InitialState = sm.InitialState ∧
    (sm.Transition toS).sm.entryActions = sm.entryActions ∧
    (sm.Transition toS).sm.exitActions = sm.exitActions :=
  StateMachine.transition_frame sm toS
